import Mathlib

/-!
Verification of the rust-cktap protocol core against its specification.

The definitions below are a shallow embedding of the repository sources:
  src/lib/src/ccid.rs           (CCID codec)
  src/lib/src/usb_transport.rs  (USB transport, slot-error mapping)
  src/lib/src/commands.rs       (session auth, read, certificate chain)
  src/cli/src/main.rs           (card ident display string)
Machine bytes are Nat values below 256, u32 values Nat below 2 ^ 32;
fallible code returns Except.  External cryptographic primitives
(secp256k1, SHA-256, ECDH, the RNG) are abstracted as function
parameters; everything that the repository itself computes is embedded
directly.
-/

/-- Modelled from the spec: the host error taxonomy of section 7.  The file
declaring the Error enum is not under src/; the variants and payloads used
here appear verbatim at construction sites in src/lib/src/usb_transport.rs
and src/lib/src/commands.rs. -/
inductive CkError where
  | DeviceNotFound
  | Usb (code : Nat)
  | Ccid (msg : String)
  | Apdu (sw1 sw2 : Nat)
  | CardError (code : Nat) (msg : String)
  | NeedsAuth
  | BadAuth
  | RateLimited (delay : Nat)
  | NotGenuine
  | IncorrectSignature (msg : String)
  | Cbor (msg : String)
  | Secp256k1Err (msg : String)
  | UnknownCardType (msg : String)
  | ProtocolViolation
  deriving DecidableEq, Repr

/-- Embeds CcidError from src/lib/src/ccid.rs (the variants this core uses). -/
inductive CcidError where
  | InvalidHeader
  | InvalidResponse
  | UnknownMessageType (b : Nat)
  | InvalidSlotStatus
  | InvalidSlotError
  deriving DecidableEq, Repr

/-- Embeds SlotStatus from src/lib/src/ccid.rs. -/
inductive SlotStatus where
  | ActiveICC
  | InactiveICC
  | NoICCPresent
  deriving DecidableEq, Repr

/-- Embeds SlotError from src/lib/src/ccid.rs. -/
inductive SlotError where
  | NoError
  | CommandError
  | MoreTime
  | HardwareError
  deriving DecidableEq, Repr

/-- Embeds SlotStatus::from_bits: match on bits & 0x03, 3 is rejected. -/
def SlotStatus.from_bits (bits : Nat) : Except CcidError SlotStatus :=
  match bits &&& 3 with
  | 0 => .ok SlotStatus.ActiveICC
  | 1 => .ok SlotStatus.InactiveICC
  | 2 => .ok SlotStatus.NoICCPresent
  | _ => .error CcidError.InvalidSlotStatus

/-- Embeds SlotError::from_bits: match on bits & 0x03 (all four values hit). -/
def SlotError.from_bits (bits : Nat) : Except CcidError SlotError :=
  match bits &&& 3 with
  | 0 => .ok SlotError.NoError
  | 1 => .ok SlotError.CommandError
  | 2 => .ok SlotError.MoreTime
  | _ => .error CcidError.InvalidSlotError

/-- Embeds CcidHeader from src/lib/src/ccid.rs: a packed 10-byte record
with message_type, u32 little-endian length, slot, sequence and three
reserved bytes. -/
structure CcidHeader where
  message_type : Nat
  length : Nat
  slot : Nat
  sequence : Nat
  reserved : List Nat
  deriving DecidableEq, Repr

/-- Embeds CcidHeader::new: reserved bytes start zeroed; length.to_le() is
the identity on the numeric value (it only fixes the byte order used by
to_bytes). -/
def CcidHeader.new (message_type length slot sequence : Nat) : CcidHeader :=
  { message_type := message_type
    length := length
    slot := slot
    sequence := sequence
    reserved := [0, 0, 0] }

/-- Little-endian byte decomposition of a u32 value. -/
def u32_to_le_bytes (n : Nat) : List Nat :=
  [n % 256, n / 256 % 256, n / 65536 % 256, n / 16777216 % 256]

/-- Embeds u32::from_le_bytes. -/
def u32_from_le_bytes (b0 b1 b2 b3 : Nat) : Nat :=
  b0 + 256 * b1 + 65536 * b2 + 16777216 * b3

/-- Embeds CcidHeader::to_bytes: the transmute of the packed repr(C)
struct, i.e. message_type, the four length bytes little-endian, slot,
sequence, then the reserved bytes. -/
def CcidHeader.to_bytes (h : CcidHeader) : List Nat :=
  h.message_type :: (u32_to_le_bytes h.length ++ (h.slot :: h.sequence :: h.reserved))

/-- Embeds CcidHeader::from_bytes from src/lib/src/ccid.rs. -/
def CcidHeader.from_bytes (bytes : List Nat) : Except CcidError CcidHeader :=
  if bytes.length < 10 then .error CcidError.InvalidHeader
  else .ok
    { message_type := bytes.getD 0 0
      length := u32_from_le_bytes (bytes.getD 1 0) (bytes.getD 2 0) (bytes.getD 3 0) (bytes.getD 4 0)
      slot := bytes.getD 5 0
      sequence := bytes.getD 6 0
      reserved := [bytes.getD 7 0, bytes.getD 8 0, bytes.getD 9 0] }

/-- Embeds CcidResponse from src/lib/src/ccid.rs. -/
structure CcidResponse where
  header : CcidHeader
  data : List Nat
  slot_status : SlotStatus
  slot_error : SlotError
  deriving DecidableEq, Repr

/-- Embeds CcidResponse::from_bytes: header parse, length check, byte 7 is
the slot status byte (low two bits the status, bits 6-7 the error), the
payload is bytes 10..10+length. -/
def CcidResponse.from_bytes (bytes : List Nat) : Except CcidError CcidResponse :=
  if bytes.length < 10 then .error CcidError.InvalidResponse
  else
    match CcidHeader.from_bytes bytes with
    | .error e => .error e
    | .ok header =>
      if bytes.length < 10 + header.length then .error CcidError.InvalidResponse
      else
        let status_byte := bytes.getD 7 0
        match SlotStatus.from_bits (status_byte &&& 3) with
        | .error e => .error e
        | .ok slot_status =>
          match SlotError.from_bits (status_byte >>> 6) with
          | .error e => .error e
          | .ok slot_error =>
            .ok { header := header
                  data := (bytes.drop 10).take header.length
                  slot_status := slot_status
                  slot_error := slot_error }

/-- Lowercase hex digit character, as Rust {:x} emits. -/
def hexDigitLower (n : Nat) : Char :=
  if n < 10 then Char.ofNat (48 + n) else Char.ofNat (87 + n)

/-- Hex digits of a positive number, most significant first; empty for 0. -/
def hexCharsLower : Nat → List Char
  | 0 => []
  | n + 1 => hexCharsLower ((n + 1) / 16) ++ [hexDigitLower ((n + 1) % 16)]
decreasing_by exact Nat.div_lt_self (Nat.succ_pos n) (by decide)

/-- Embeds the Rust alternate hex format {:#x}: a 0x prefix and no padding. -/
def fmtHexLower (n : Nat) : String :=
  if n = 0 then "0x0" else "0x" ++ String.mk (hexCharsLower n)

/-- Embeds UsbTransport::check_response_status from
src/lib/src/usb_transport.rs: slot-error to host-error mapping. -/
def check_response_status (response : CcidResponse) : Except CkError Unit :=
  match response.slot_error with
  | SlotError.NoError => .ok ()
  | SlotError.CommandError =>
    if response.slot_status = SlotStatus.NoICCPresent then
      .error (CkError.Ccid "No card present")
    else if response.data.isEmpty then
      .error (CkError.Ccid "Command error")
    else
      match response.data.headD 0 with
      | 0xFF => .error (CkError.Ccid "Command aborted")
      | 0xFE => .error (CkError.Ccid "ICC mute (no card?)")
      | 0xFD => .error (CkError.Ccid "XFR parity error")
      | 0xFC => .error (CkError.Ccid "XFR overrun")
      | code => .error (CkError.Ccid ("Command error: " ++ fmtHexLower code))
  | SlotError.MoreTime => .error (CkError.Ccid "Time extension requested")
  | SlotError.HardwareError => .error (CkError.Ccid "Hardware error")

/-- Embeds one send_command/read_response exchange of
src/lib/src/usb_transport.rs.  The reader is modelled as the list of
read_response outcomes it will produce, consumed in order; the function
returns the outcome of the first read together with the unconsumed reads.
An exhausted list stands for a short bulk read. -/
def ccid_exchange (reads : List (Except CkError CcidResponse)) :
    Except CkError (List Nat) × List (Except CkError CcidResponse) :=
  match reads with
  | [] => (.error (CkError.Ccid "Response too short"), [])
  | .error e :: rest => (.error e, rest)
  | .ok response :: rest =>
    match check_response_status response with
    | .error e => (.error e, rest)
    | .ok _ => (.ok response.data, rest)

/-- Embeds UsbTransport::transmit_apdu from src/lib/src/usb_transport.rs:
one IccPowerOn exchange whose outcome is ignored, then exactly one
XfrBlock exchange whose outcome is returned; there is no retry of any
kind. -/
def transmit_apdu (reads : List (Except CkError CcidResponse)) :
    Except CkError (List Nat) × List (Except CkError CcidResponse) :=
  let power := ccid_exchange reads
  ccid_exchange power.2

/-- Modelled from the spec: the transmit_apdu behaviour that claim C3 and
section 7 of the spec describe, in which a USB error or a MoreTime slot
error on the XfrBlock exchange is retried once locally and only a failure
of the retry surfaces to the caller. -/
def transmit_apdu_retry_once (reads : List (Except CkError CcidResponse)) :
    Except CkError (List Nat) × List (Except CkError CcidResponse) :=
  let power := ccid_exchange reads
  match power.2 with
  | [] => (.error (CkError.Ccid "Response too short"), [])
  | .error (CkError.Usb _) :: rest => ccid_exchange rest
  | .error e :: rest => (.error e, rest)
  | .ok response :: rest =>
    if response.slot_error = SlotError.MoreTime then ccid_exchange rest
    else
      match check_response_status response with
      | .error e => (.error e, rest)
      | .ok _ => (.ok response.data, rest)

/-- A successful DataBlock response carrying the given payload, used as a
concrete reader outcome. -/
def data_block_ok (payload : List Nat) : CcidResponse :=
  { header := CcidHeader.new 0x80 payload.length 0 0
    data := payload
    slot_status := SlotStatus.ActiveICC
    slot_error := SlotError.NoError }

/-- A DataBlock response whose slot error is MoreTime. -/
def data_block_more_time : CcidResponse :=
  { header := CcidHeader.new 0x80 0 0 0
    data := []
    slot_status := SlotStatus.ActiveICC
    slot_error := SlotError.MoreTime }

/-- Embeds the card-variant classification of CkTransport::to_cktap from
src/lib/src/commands.rs, which matches on the (tapsigner, satschip) flags
of the first status response. -/
inductive CardVariant where
  | TapSignerCard
  | SatsCardCard
  deriving DecidableEq, Repr

/-- Embeds the match in CkTransport::to_cktap: (Some true, None) and
(Some true, Some true) build a TapSigner, (None, None) a SatsCard, and
every other flag pattern is the UnknownCardType error. -/
def to_cktap_variant (tapsigner satschip : Option Bool) : Except CkError CardVariant :=
  match tapsigner, satschip with
  | some true, none => .ok CardVariant.TapSignerCard
  | some true, some true => .ok CardVariant.TapSignerCard
  | none, none => .ok CardVariant.SatsCardCard
  | _, _ => .error (CkError.UnknownCardType "Card not recognized.")

/-- Embeds the xcvc computation of Authentication::calc_ekeys_xcvc from
src/lib/src/commands.rs.  The ECDH shared secret of the freshly generated
ephemeral key pair with the card pubkey enters as session_key, and SHA-256
as an abstract function; what the repository itself computes is the
concatenation, the mask and the two byte-wise XOR passes. -/
def calc_xcvc (sha256 : List Nat → List Nat) (session_key : List Nat)
    (card_nonce : List Nat) (command : List Nat) (cvc : List Nat) : List Nat :=
  let card_nonce_command := card_nonce ++ command
  let md := sha256 card_nonce_command
  let mask := (List.zipWith Nat.xor session_key md).take cvc.length
  List.zipWith Nat.xor cvc mask

/-- Embeds the BIP-137 offset match of Certificate::check_certificate in
src/lib/src/commands.rs: the four recovery ranges, none outside them. -/
def subtract_by (sig0 : Nat) : Option Nat :=
  if 27 ≤ sig0 ∧ sig0 ≤ 30 then some 27
  else if 31 ≤ sig0 ∧ sig0 ≤ 34 then some 31
  else if 35 ≤ sig0 ∧ sig0 ≤ 38 then some 35
  else if 39 ≤ sig0 ∧ sig0 ≤ 42 then some 39
  else none

/-- Embeds one iteration of the certificate-chain loop of
Certificate::check_certificate.  The secp256k1 primitives enter
abstractly: serialize_uncompressed produces the 65-byte uncompressed
serialization of a public key, sha256 the 32-byte digest, and
recover_ecdsa takes the digest, the 64 compact signature bytes and the
recovery id and yields the recovered key or a library error (this also
covers RecoveryId::from_i32 and RecoverableSignature::from_compact). -/
def cert_step {PK : Type} (sha256 : List Nat → List Nat)
    (serialize_uncompressed : PK → List Nat)
    (recover_ecdsa : List Nat → List Nat → Nat → Except CkError PK)
    (pubkey : PK) (sig : List Nat) : Except CkError PK :=
  match subtract_by (sig.headD 0) with
  | none =>
    .error (CkError.IncorrectSignature
      ("Unrecognized BIP-137 address type: " ++ toString (sig.headD 0)))
  | some sub =>
    let rec_id := sig.headD 0 - sub
    let compact := sig.drop 1
    recover_ecdsa (sha256 (serialize_uncompressed pubkey)) compact rec_id

/-- Modelled from the spec: FactoryRootKey::try_from (the file
factory_root_key.rs is not under src/); section 4.6 of the spec says the
terminal key is matched against the hard-coded set of known factory root
keys, anything else meaning the card is not genuine.  The known roots
enter as the abstract list roots. -/
def factory_root_try_from {PK : Type} [DecidableEq PK]
    (roots : List PK) (pubkey : PK) : Except CkError PK :=
  if pubkey ∈ roots then .ok pubkey else .error CkError.NotGenuine

/-- Embeds the certificate-chain walk of Certificate::check_certificate
from src/lib/src/commands.rs: starting from the card static pubkey, each
chain entry replaces the current pubkey by the key recovered by
cert_step, and after the last entry the pubkey is given to
FactoryRootKey::try_from. -/
def check_certificate_chain {PK : Type} [DecidableEq PK]
    (sha256 : List Nat → List Nat) (serialize_uncompressed : PK → List Nat)
    (recover_ecdsa : List Nat → List Nat → Nat → Except CkError PK)
    (roots : List PK) (pubkey : PK) (chain : List (List Nat)) : Except CkError PK :=
  match chain with
  | [] => factory_root_try_from roots pubkey
  | sig :: rest =>
    match cert_step sha256 serialize_uncompressed recover_ecdsa pubkey sig with
    | .error e => .error e
    | .ok next => check_certificate_chain sha256 serialize_uncompressed recover_ecdsa roots next rest

/-- The certificate walk exactly as claim C1 words it: fold the per-entry
recovery over the chain in order starting from the card static pubkey,
and after the last entry the current pubkey must equal one of the known
factory roots, otherwise an error. -/
def claim_c1_walk {PK : Type} [DecidableEq PK]
    (sha256 : List Nat → List Nat) (serialize_uncompressed : PK → List Nat)
    (recover_ecdsa : List Nat → List Nat → Nat → Except CkError PK)
    (roots : List PK) (start : PK) (chain : List (List Nat)) : Except CkError PK :=
  match chain.foldlM (cert_step sha256 serialize_uncompressed recover_ecdsa) start with
  | .error e => .error e
  | .ok final => if final ∈ roots then .ok final else .error CkError.NotGenuine

/-- Uppercase hex digit character, as Rust {:X} emits. -/
def hexDigitUpper (n : Nat) : Char :=
  if n < 10 then Char.ofNat (48 + n) else Char.ofNat (55 + n)

/-- Uppercase hex digits of a positive number, most significant first. -/
def hexCharsUpper : Nat → List Char
  | 0 => []
  | n + 1 => hexCharsUpper ((n + 1) / 16) ++ [hexDigitUpper ((n + 1) % 16)]
decreasing_by exact Nat.div_lt_self (Nat.succ_pos n) (by decide)

/-- Embeds the Rust format {:X}: uppercase hex with no padding and no
prefix; 0 prints as a single digit. -/
def rustHexUpper (n : Nat) : String :=
  if n = 0 then "0" else String.mk (hexCharsUpper n)

/-- Embeds the u32 fold of the card ident code in src/cli/src/main.rs:
fold(0u32, acc shifted left by 8, or-ed with the next byte), with the u32
shift discarding the high bits. -/
def be_u32_fold (bytes : List Nat) : Nat :=
  bytes.foldl (fun acc b => ((acc <<< 8) % 4294967296) ||| b) 0

/-- Embeds the card ident display string of handle_auto_command and
handle_tapsigner_command in src/cli/src/main.rs: the format string
CARD-{:X} applied to the fold of the first four bytes of the compressed
33-byte pubkey serialization (passed here as the byte list). -/
def card_ident (pubkey_bytes : List Nat) : String :=
  "CARD-" ++ rustHexUpper (be_u32_fold (pubkey_bytes.take 4))

/-- Left-pads a string with zero digits up to the given width. -/
def zero_pad (w : Nat) (s : String) : String :=
  String.mk (List.replicate (w - s.length) (Char.ofNat 48)) ++ s

/-- The card ident exactly as claim C9 words it: CARD- followed by exactly
eight hexadecimal digits, the zero-padded hex of the first four bytes of
the compressed pubkey read as a big-endian 32-bit integer. -/
def claim_c9_ident (pubkey_bytes : List Nat) : String :=
  "CARD-" ++ zero_pad 8 (rustHexUpper (be_u32_fold (pubkey_bytes.take 4)))

/-- The mutable card state the commands touch: the latched card nonce and
the auth delay (per the Authentication trait accessors in
src/lib/src/commands.rs). -/
structure CardState where
  card_nonce : List Nat
  auth_delay : Option Nat
  deriving DecidableEq, Repr

/-- Modelled from the spec: the read response record (the file apdu.rs
declaring ReadResponse is not under src/): the next card nonce plus the
signature and pubkey payload bytes the verification consumes. -/
structure ReadResponse where
  card_nonce : List Nat
  sig : List Nat
  pubkey : List Nat
  deriving DecidableEq, Repr

/-- Modelled from the spec: the CHECK response record (apdu.rs is not
under src/): the next card nonce and the auth_sig over the digest. -/
structure CheckResponse where
  card_nonce : List Nat
  auth_sig : List Nat
  deriving DecidableEq, Repr

/-- Embeds the control flow of Read::read from src/lib/src/commands.rs as
a state transformer.  The pre-call nonce is captured first; a required
but absent CVC is the NeedsAuth error; the transport exchange enters as
its outcome transmit_result; verify stands for the verify_ecdsa call on
the digest of the captured card nonce and the app nonce against the
response signature and (session-adjusted) response pubkey; only after it
succeeds is the response nonce latched into the state. -/
def read_cmd (verify : List Nat → List Nat → ReadResponse → Except CkError Unit)
    (requires_auth : Bool) (cvc : Option String)
    (transmit_result : Except CkError ReadResponse)
    (app_nonce : List Nat) (s : CardState) :
    Except CkError ReadResponse × CardState :=
  let card_nonce := s.card_nonce
  if requires_auth = true ∧ cvc = none then
    (.error CkError.NeedsAuth, s)
  else
    match transmit_result with
    | .error e => (.error e, s)
    | .ok response =>
      match verify card_nonce app_nonce response with
      | .error e => (.error e, s)
      | .ok _ => (.ok response, { s with card_nonce := response.card_nonce })

/-- Embeds the command flow of Certificate::check_certificate from
src/lib/src/commands.rs as a state transformer: capture the pre-call
nonce, run CERTS then CHECK (entering as their outcomes), latch the CHECK
response nonce, verify the auth_sig over the captured nonce and the fresh
app nonce (verify_card stands for verify_card_signature), then walk the
fetched chain from the card static pubkey. -/
def check_certificate_cmd {PK : Type} [DecidableEq PK]
    (sha256 : List Nat → List Nat) (serialize_uncompressed : PK → List Nat)
    (recover_ecdsa : List Nat → List Nat → Nat → Except CkError PK)
    (roots : List PK)
    (verify_card : List Nat → List Nat → List Nat → Except CkError Unit)
    (certs_result : Except CkError (List (List Nat)))
    (check_result : Except CkError CheckResponse)
    (app_nonce : List Nat) (pubkey : PK) (s : CardState) :
    Except CkError PK × CardState :=
  let card_nonce := s.card_nonce
  match certs_result with
  | .error e => (.error e, s)
  | .ok cert_chain =>
    match check_result with
    | .error e => (.error e, s)
    | .ok check_response =>
      let s1 := { s with card_nonce := check_response.card_nonce }
      match verify_card check_response.auth_sig card_nonce app_nonce with
      | .error e => (.error e, s1)
      | .ok _ =>
        (check_certificate_chain sha256 serialize_uncompressed recover_ecdsa roots pubkey cert_chain, s1)

/-- C8: encoding a CcidHeader built from any message type byte, u32
length, slot byte and sequence byte with to_bytes yields a 10-byte record
carrying the length little-endian in bytes 1-4, and from_bytes decodes
those bytes back to the original message_type, length, slot and sequence
values. -/
theorem ccid_header_roundtrip (mt len slot seq : Nat) (hlen : len < 4294967296) :
    ((CcidHeader.new mt len slot seq).to_bytes).length = 10 ∧
    u32_from_le_bytes (((CcidHeader.new mt len slot seq).to_bytes).getD 1 0)
      (((CcidHeader.new mt len slot seq).to_bytes).getD 2 0)
      (((CcidHeader.new mt len slot seq).to_bytes).getD 3 0)
      (((CcidHeader.new mt len slot seq).to_bytes).getD 4 0) = len ∧
    CcidHeader.from_bytes ((CcidHeader.new mt len slot seq).to_bytes) =
      .ok (CcidHeader.new mt len slot seq) := by
  refine ⟨?_, ?_, ?_⟩
  · simp [CcidHeader.new, CcidHeader.to_bytes, u32_to_le_bytes]
  · simp [CcidHeader.new, CcidHeader.to_bytes, u32_to_le_bytes, u32_from_le_bytes, List.getD]
    omega
  · simp [CcidHeader.new, CcidHeader.to_bytes, u32_to_le_bytes, CcidHeader.from_bytes,
      u32_from_le_bytes, List.getD, CcidHeader.mk.injEq]
    omega

/-- Witness for ccid_header_roundtrip: the XfrBlock type with length 5,
slot 0, sequence 1 round-trips. -/
theorem ccid_header_roundtrip_witness :
    (5 : Nat) < 4294967296 ∧
    CcidHeader.from_bytes ((CcidHeader.new 0x6F 5 0 1).to_bytes) = .ok (CcidHeader.new 0x6F 5 0 1) :=
  ⟨by decide, (ccid_header_roundtrip 0x6F 5 0 1 (by decide)).2.2⟩

/-- C4: to_cktap classifies the status flags: tapsigner Some true with
satschip absent and tapsigner Some true with satschip Some true both give
a TapSigner card, both flags absent gives a SatsCard, and every other
combination — in particular satschip Some true with tapsigner absent — is
the UnknownCardType error. -/
theorem to_cktap_classification :
    to_cktap_variant (some true) none = .ok CardVariant.TapSignerCard ∧
    to_cktap_variant (some true) (some true) = .ok CardVariant.TapSignerCard ∧
    to_cktap_variant none none = .ok CardVariant.SatsCardCard ∧
    to_cktap_variant none (some true) = .error (CkError.UnknownCardType "Card not recognized.") ∧
    ∀ t s : Option Bool,
      ¬(t = some true ∧ s = none) → ¬(t = some true ∧ s = some true) → ¬(t = none ∧ s = none) →
      to_cktap_variant t s = .error (CkError.UnknownCardType "Card not recognized.") := by
  refine ⟨rfl, rfl, rfl, rfl, ?_⟩
  intro t s h1 h2 h3
  cases t with
  | none =>
    cases s with
    | none => exact absurd ⟨rfl, rfl⟩ h3
    | some c => cases c <;> rfl
  | some b =>
    cases b with
    | false =>
      cases s with
      | none => rfl
      | some c => cases c <;> rfl
    | true =>
      cases s with
      | none => exact absurd ⟨rfl, rfl⟩ h1
      | some c =>
        cases c with
        | false => rfl
        | true => exact absurd ⟨rfl, rfl⟩ h2

/-- Witness for to_cktap_classification: tapsigner Some false is not a
recognized pattern. -/
theorem to_cktap_classification_witness :
    to_cktap_variant (some false) none = .error (CkError.UnknownCardType "Card not recognized.") :=
  to_cktap_classification.2.2.2.2 (some false) none (by decide) (by decide) (by decide)

/-- C7: the mapping from a parsed CCID response to a host result:
NoError succeeds; CommandError with NoICCPresent is the no-card-present
error regardless of payload; otherwise CommandError dispatches on the
first payload byte (0xFF aborted, 0xFE ICC mute, 0xFD XFR parity, 0xFC
XFR overrun, any other byte a command error carrying that code);
MoreTime is the time-extension error; HardwareError the hardware
error. -/
theorem check_response_status_mapping (r : CcidResponse) :
    (r.slot_error = SlotError.NoError → check_response_status r = .ok ()) ∧
    (r.slot_error = SlotError.CommandError → r.slot_status = SlotStatus.NoICCPresent →
      check_response_status r = .error (CkError.Ccid "No card present")) ∧
    (r.slot_error = SlotError.CommandError → r.slot_status ≠ SlotStatus.NoICCPresent →
      r.data.head? = some 0xFF →
      check_response_status r = .error (CkError.Ccid "Command aborted")) ∧
    (r.slot_error = SlotError.CommandError → r.slot_status ≠ SlotStatus.NoICCPresent →
      r.data.head? = some 0xFE →
      check_response_status r = .error (CkError.Ccid "ICC mute (no card?)")) ∧
    (r.slot_error = SlotError.CommandError → r.slot_status ≠ SlotStatus.NoICCPresent →
      r.data.head? = some 0xFD →
      check_response_status r = .error (CkError.Ccid "XFR parity error")) ∧
    (r.slot_error = SlotError.CommandError → r.slot_status ≠ SlotStatus.NoICCPresent →
      r.data.head? = some 0xFC →
      check_response_status r = .error (CkError.Ccid "XFR overrun")) ∧
    (∀ c, r.slot_error = SlotError.CommandError → r.slot_status ≠ SlotStatus.NoICCPresent →
      r.data.head? = some c → c ≠ 0xFF → c ≠ 0xFE → c ≠ 0xFD → c ≠ 0xFC →
      check_response_status r = .error (CkError.Ccid ("Command error: " ++ fmtHexLower c))) ∧
    (r.slot_error = SlotError.MoreTime →
      check_response_status r = .error (CkError.Ccid "Time extension requested")) ∧
    (r.slot_error = SlotError.HardwareError →
      check_response_status r = .error (CkError.Ccid "Hardware error")) := by
  obtain ⟨h, d, st, se⟩ := r
  refine ⟨?_, ?_, ?_, ?_, ?_, ?_, ?_, ?_, ?_⟩
  · intro he
    subst he
    rfl
  · intro he hst
    subst he
    subst hst
    rfl
  · intro he hst hd
    subst he
    cases d with
    | nil => simp at hd
    | cons a t =>
      simp at hd
      subst hd
      simp [check_response_status, hst]
  · intro he hst hd
    subst he
    cases d with
    | nil => simp at hd
    | cons a t =>
      simp at hd
      subst hd
      simp [check_response_status, hst]
  · intro he hst hd
    subst he
    cases d with
    | nil => simp at hd
    | cons a t =>
      simp at hd
      subst hd
      simp [check_response_status, hst]
  · intro he hst hd
    subst he
    cases d with
    | nil => simp at hd
    | cons a t =>
      simp at hd
      subst hd
      simp [check_response_status, hst]
  · intro c he hst hd hff hfe hfd hfc
    subst he
    cases d with
    | nil => simp at hd
    | cons a t =>
      simp at hd
      subst hd
      simp only [check_response_status, List.headD_cons, List.isEmpty_cons, hst,
        if_false, Bool.false_eq_true, ite_false]
  · intro he
    subst he
    rfl
  · intro he
    subst he
    rfl

/-- Witness for check_response_status_mapping: the MoreTime, NoError and
generic-code branches at concrete responses. -/
theorem check_response_status_mapping_witness :
    check_response_status data_block_more_time = .error (CkError.Ccid "Time extension requested") ∧
    check_response_status (data_block_ok [144, 0]) = .ok () ∧
    check_response_status { data_block_ok [0xAB] with slot_error := SlotError.CommandError } =
      .error (CkError.Ccid ("Command error: " ++ fmtHexLower 0xAB)) :=
  ⟨(check_response_status_mapping data_block_more_time).2.2.2.2.2.2.2.1 rfl,
   (check_response_status_mapping (data_block_ok [144, 0])).1 rfl,
   (check_response_status_mapping _).2.2.2.2.2.2.1 0xAB rfl (by decide) rfl
     (by decide) (by decide) (by decide) (by decide)⟩

/-- Counterexample to claim C3: with a reader whose XfrBlock response
carries MoreTime once and which would answer successfully on a retry,
the source transmit_apdu surfaces the time-extension error immediately,
while the retry-once behaviour the claim describes would succeed. -/
theorem transmit_apdu_no_retry_counterexample :
    (transmit_apdu
      [.ok (data_block_ok [1]), .ok data_block_more_time, .ok (data_block_ok [144, 0])]).1
      = .error (CkError.Ccid "Time extension requested") ∧
    (transmit_apdu_retry_once
      [.ok (data_block_ok [1]), .ok data_block_more_time, .ok (data_block_ok [144, 0])]).1
      = .ok [144, 0] :=
  ⟨rfl, rfl⟩

/-- A single CCID exchange on a non-empty read list always consumes
exactly its first read. -/
theorem ccid_exchange_cons_snd (r : Except CkError CcidResponse)
    (rest : List (Except CkError CcidResponse)) :
    (ccid_exchange (r :: rest)).2 = rest := by
  cases r with
  | error e => rfl
  | ok response =>
    cases h : check_response_status response <;> simp [ccid_exchange, h]

/-- C3 amended: transmit_apdu performs no retry at all: after the
power-on exchange consumed its read, a MoreTime XfrBlock response
surfaces immediately as the Ccid time-extension error (spelled with a
capital T in the source) and a failed bulk read surfaces its error
immediately; the reads after the failing one stay unconsumed. -/
theorem transmit_apdu_no_retry (r0 : Except CkError CcidResponse)
    (response : CcidResponse) (e : CkError)
    (rest : List (Except CkError CcidResponse)) :
    (response.slot_error = SlotError.MoreTime →
      transmit_apdu (r0 :: .ok response :: rest) =
        (.error (CkError.Ccid "Time extension requested"), rest)) ∧
    transmit_apdu (r0 :: .error e :: rest) = (.error e, rest) := by
  constructor
  · intro h
    show ccid_exchange (ccid_exchange (r0 :: (.ok response :: rest))).2 =
      (.error (CkError.Ccid "Time extension requested"), rest)
    rw [ccid_exchange_cons_snd]
    simp [ccid_exchange, check_response_status, h]
  · show ccid_exchange (ccid_exchange (r0 :: (.error e :: rest))).2 = (.error e, rest)
    rw [ccid_exchange_cons_snd]
    rfl

/-- Witness for transmit_apdu_no_retry: a concrete two-read reader whose
XfrBlock answer is MoreTime. -/
theorem transmit_apdu_no_retry_witness :
    data_block_more_time.slot_error = SlotError.MoreTime ∧
    transmit_apdu [.ok (data_block_ok []), .ok data_block_more_time] =
      (.error (CkError.Ccid "Time extension requested"), []) :=
  ⟨rfl,
   (transmit_apdu_no_retry (.ok (data_block_ok [])) data_block_more_time
     CkError.DeviceNotFound []).1 rfl⟩

/-- XOR-ing a byte list twice with the same byte list cancels, up to the
length of the second list. -/
theorem zipWith_xor_cancel (a b : List Nat) :
    List.zipWith Nat.xor (List.zipWith Nat.xor a b) b = a.take b.length := by
  induction a generalizing b with
  | nil => simp
  | cons x xs ih =>
    cases b with
    | nil => simp
    | cons y ys =>
      simp only [List.zipWith_cons_cons, List.length_cons, List.take_succ_cons]
      have hxor : Nat.xor (Nat.xor x y) y = x := by
        show x ^^^ y ^^^ y = x
        rw [Nat.xor_assoc, Nat.xor_self, Nat.xor_zero]
      rw [hxor, ih ys]

/-- C2: for a CVC of 1 to 32 bytes, a 16-byte card nonce, any command
bytes and the 32-byte ECDH shared secret of the card pubkey with the
ephemeral private key, the xcvc computed by calc_ekeys_xcvc has exactly
the CVC length and XOR-ing it byte-wise with the first len(cvc) bytes of
session_key XOR SHA256(card_nonce concatenated with the command name)
reproduces the CVC. -/
theorem calc_xcvc_roundtrip (sha256 : List Nat → List Nat)
    (session_key card_nonce command cvc : List Nat)
    (hcvc1 : 1 ≤ cvc.length) (hcvc2 : cvc.length ≤ 32)
    (hsk : session_key.length = 32)
    (hmd : (sha256 (card_nonce ++ command)).length = 32)
    (_hnonce : card_nonce.length = 16) :
    (calc_xcvc sha256 session_key card_nonce command cvc).length = cvc.length ∧
    List.zipWith Nat.xor (calc_xcvc sha256 session_key card_nonce command cvc)
      ((List.zipWith Nat.xor session_key (sha256 (card_nonce ++ command))).take cvc.length)
      = cvc := by
  have hmask : ((List.zipWith Nat.xor session_key (sha256 (card_nonce ++ command))).take
      cvc.length).length = cvc.length := by
    simp only [List.length_take, List.length_zipWith, hsk, hmd]
    omega
  constructor
  · simp only [calc_xcvc, List.length_zipWith, hmask]
    omega
  · simp only [calc_xcvc]
    rw [zipWith_xor_cancel, hmask, List.take_length]

/-- Witness for calc_xcvc_roundtrip: a 3-byte CVC, the all-zero nonce, a
one-byte command, a constant SHA-256 stub and a constant shared
secret. -/
theorem calc_xcvc_roundtrip_witness :
    List.zipWith Nat.xor
      (calc_xcvc (fun _ => List.replicate 32 7) (List.replicate 32 9)
        (List.replicate 16 0) [114] [49, 50, 51])
      ((List.zipWith Nat.xor (List.replicate 32 9) (List.replicate 32 7)).take 3)
      = [49, 50, 51] :=
  (calc_xcvc_roundtrip (fun _ => List.replicate 32 7) (List.replicate 32 9)
    (List.replicate 16 0) [114] [49, 50, 51]
    (by decide) (by decide) (by decide) (by decide) (by decide)).2

/-- Unfolding claim_c1_walk along one chain entry. -/
theorem claim_c1_walk_cons {PK : Type} [DecidableEq PK]
    (sha256 : List Nat → List Nat) (serialize_uncompressed : PK → List Nat)
    (recover_ecdsa : List Nat → List Nat → Nat → Except CkError PK)
    (roots : List PK) (start : PK) (sig : List Nat) (rest : List (List Nat)) :
    claim_c1_walk sha256 serialize_uncompressed recover_ecdsa roots start (sig :: rest) =
      match cert_step sha256 serialize_uncompressed recover_ecdsa start sig with
      | .error e => .error e
      | .ok next => claim_c1_walk sha256 serialize_uncompressed recover_ecdsa roots next rest := by
  unfold claim_c1_walk
  rw [List.foldlM_cons]
  cases cert_step sha256 serialize_uncompressed recover_ecdsa start sig <;>
    simp [Bind.bind, Except.bind]

/-- C1: the certificate walk of check_certificate agrees, for chains of
65-byte entries, with the walk exactly as the claim words it (the offset
taken from the four BIP-137 ranges of the first byte of the entry, rec_id the
first byte minus that offset, compact the remaining 64 bytes, recovery
over the SHA-256 digest of the uncompressed serialization of the current key,
the recovered key replacing the current one, and after the last entry the
current key must be one of the known factory roots); moreover whenever
the walk succeeds the returned key is a factory root, so on a
non-matching terminal key it returns an error and never a factory
root. -/
theorem check_certificate_chain_correct {PK : Type} [DecidableEq PK]
    (sha256 : List Nat → List Nat) (serialize_uncompressed : PK → List Nat)
    (recover_ecdsa : List Nat → List Nat → Nat → Except CkError PK)
    (roots : List PK) (start : PK) (chain : List (List Nat))
    (h65 : ∀ sig ∈ chain, sig.length = 65) :
    check_certificate_chain sha256 serialize_uncompressed recover_ecdsa roots start chain =
      claim_c1_walk sha256 serialize_uncompressed recover_ecdsa roots start chain ∧
    ∀ pk, check_certificate_chain sha256 serialize_uncompressed recover_ecdsa roots start chain
      = .ok pk → pk ∈ roots := by
  induction chain generalizing start with
  | nil =>
    constructor
    · rfl
    · intro pk h
      unfold check_certificate_chain factory_root_try_from at h
      by_cases hmem : start ∈ roots
      · rw [if_pos hmem] at h
        cases h
        exact hmem
      · rw [if_neg hmem] at h
        cases h
  | cons sig rest ih =>
    have hrest : ∀ s ∈ rest, s.length = 65 := fun s hs => h65 s (List.mem_cons_of_mem _ hs)
    rw [claim_c1_walk_cons]
    cases hstep : cert_step sha256 serialize_uncompressed recover_ecdsa start sig with
    | error e =>
      constructor
      · simp [check_certificate_chain, hstep]
      · intro pk h
        simp [check_certificate_chain, hstep] at h
    | ok next =>
      obtain ⟨ih1, ih2⟩ := ih next hrest
      constructor
      · simpa [check_certificate_chain, hstep] using ih1
      · intro pk h
        apply ih2 pk
        simpa [check_certificate_chain, hstep] using h

/-- Witness for check_certificate_chain_correct: a one-entry chain over
Nat standing for the key type, with a recovery stub returning the only
root. -/
theorem check_certificate_chain_correct_witness :
    (∀ sig ∈ [(27 : Nat) :: List.replicate 64 0], sig.length = 65) ∧
    (5 : Nat) ∈ [(5 : Nat)] ∧
    check_certificate_chain (fun _ => []) (fun _ : Nat => [])
      (fun _ _ _ => Except.ok (5 : Nat)) [5] 0 [27 :: List.replicate 64 0] =
      claim_c1_walk (fun _ => []) (fun _ : Nat => [])
        (fun _ _ _ => Except.ok (5 : Nat)) [5] 0 [27 :: List.replicate 64 0] := by
  have h65 : ∀ sig ∈ [(27 : Nat) :: List.replicate 64 0], sig.length = 65 := by
    intro sig hs
    simp at hs
    subst hs
    decide
  refine ⟨h65, ?_, ?_⟩
  · exact (check_certificate_chain_correct (fun _ => []) (fun _ : Nat => [])
      (fun _ _ _ => Except.ok (5 : Nat)) [5] 0 [27 :: List.replicate 64 0] h65).2 5 rfl
  · exact (check_certificate_chain_correct (fun _ => []) (fun _ : Nat => [])
      (fun _ _ _ => Except.ok (5 : Nat)) [5] 0 [27 :: List.replicate 64 0] h65).1

/-- Counterexample to claim C6: at a chain entry whose first byte is 43 —
outside the four BIP-137 ranges — the source check_certificate fails
with the IncorrectSignature classification itself, not with an error
classification distinct from IncorrectSignature. -/
theorem cert_bad_recovery_byte_counterexample :
    check_certificate_chain (fun _ => []) (fun _ : Nat => [])
      (fun _ _ _ => Except.ok (0 : Nat)) [0] 0 [43 :: List.replicate 64 0] =
      .error (CkError.IncorrectSignature "Unrecognized BIP-137 address type: 43") := by
  rfl

/-- C6 amended: a chain entry whose first byte lies outside the four
BIP-137 ranges 27-42 makes the chain walk fail, for every such value,
with Error::IncorrectSignature carrying the Unrecognized BIP-137 address
type message — the same IncorrectSignature classification as a signature
verification failure, distinguished only by the message text, not a
distinct error classification. -/
theorem cert_bad_recovery_byte {PK : Type} [DecidableEq PK]
    (sha256 : List Nat → List Nat) (serialize_uncompressed : PK → List Nat)
    (recover_ecdsa : List Nat → List Nat → Nat → Except CkError PK)
    (roots : List PK) (start : PK) (sig : List Nat) (chain : List (List Nat))
    (h : sig.headD 0 < 27 ∨ 42 < sig.headD 0) :
    check_certificate_chain sha256 serialize_uncompressed recover_ecdsa roots start (sig :: chain)
      = .error (CkError.IncorrectSignature
          ("Unrecognized BIP-137 address type: " ++ toString (sig.headD 0))) := by
  have hsub : subtract_by (sig.headD 0) = none := by
    unfold subtract_by
    split_ifs <;> first | rfl | (exfalso; omega)
  unfold check_certificate_chain cert_step
  rw [hsub]

/-- Witness for cert_bad_recovery_byte at entry first byte 99. -/
theorem cert_bad_recovery_byte_witness :
    (((99 : Nat) :: List.replicate 64 0).headD 0 < 27 ∨
      42 < ((99 : Nat) :: List.replicate 64 0).headD 0) ∧
    check_certificate_chain (fun _ => []) (fun _ : Nat => [])
      (fun _ _ _ => Except.ok (7 : Nat)) [7] 7 [99 :: List.replicate 64 0] =
      .error (CkError.IncorrectSignature
        ("Unrecognized BIP-137 address type: " ++
          toString (((99 : Nat) :: List.replicate 64 0).headD 0))) :=
  ⟨Or.inr (by decide),
   cert_bad_recovery_byte (fun _ => []) (fun _ : Nat => [])
     (fun _ _ _ => Except.ok (7 : Nat)) [7] 7 (99 :: List.replicate 64 0) []
     (Or.inr (by decide))⟩

/-- One step of the card-ident fold is plain base-256 accumulation as
long as the shifted accumulator stays below 2 ^ 32 and the incoming byte
below 256. -/
theorem be_u32_fold_step (a b : Nat) (hb : b < 256) (ha : a * 256 < 4294967296) :
    ((a <<< 8) % 4294967296) ||| b = a * 256 + b := by
  rw [Nat.shiftLeft_eq]
  have ha2 : a * 2 ^ 8 < 4294967296 := by simpa using ha
  rw [Nat.mod_eq_of_lt ha2]
  rw [Nat.mul_comm a (2 ^ 8)]
  have hb2 : b < 2 ^ 8 := by simpa using hb
  rw [← Nat.mul_add_lt_is_or hb2 a]
  have h256 : (2 : Nat) ^ 8 * a = a * 256 := by
    norm_num
    exact Nat.mul_comm 256 a
  rw [h256]

/-- The card-ident fold over the first four bytes of a serialization is
the big-endian base-256 value of those bytes (no u32 wrap can occur when
the leading byte is below 4). -/
theorem be_u32_fold_four (b0 b1 b2 b3 : Nat) (rest : List Nat)
    (h0 : b0 < 4) (h1 : b1 < 256) (h2 : b2 < 256) (h3 : b3 < 256) :
    be_u32_fold ((b0 :: b1 :: b2 :: b3 :: rest).take 4) =
      ((b0 * 256 + b1) * 256 + b2) * 256 + b3 := by
  have ht : (b0 :: b1 :: b2 :: b3 :: rest).take 4 = [b0, b1, b2, b3] := by
    simp [List.take_succ_cons]
  rw [be_u32_fold, ht]
  simp only [List.foldl_cons, List.foldl_nil]
  rw [be_u32_fold_step 0 b0 (by omega) (by omega)]
  rw [be_u32_fold_step (0 * 256 + b0) b1 h1 (by omega)]
  rw [be_u32_fold_step ((0 * 256 + b0) * 256 + b1) b2 h2 (by omega)]
  rw [be_u32_fold_step (((0 * 256 + b0) * 256 + b1) * 256 + b2) b3 h3 (by omega)]
  ring

/-- Unfolding the uppercase hex recursion at a positive argument. -/
theorem hexCharsUpper_pos (n : Nat) (h : 0 < n) :
    hexCharsUpper n = hexCharsUpper (n / 16) ++ [hexDigitUpper (n % 16)] := by
  cases n with
  | zero => omega
  | succ m => rw [hexCharsUpper]

/-- Values in [16 ^ k, 16 ^ (k + 1)) print with exactly k + 1 hex digits. -/
theorem hexCharsUpper_length (k : Nat) : ∀ n, 16 ^ k ≤ n → n < 16 ^ (k + 1) →
    (hexCharsUpper n).length = k + 1 := by
  induction k with
  | zero =>
    intro n hlo hhi
    rw [hexCharsUpper_pos n (by simpa using hlo)]
    have hdiv : n / 16 = 0 := Nat.div_eq_of_lt (by simpa using hhi)
    have hz : hexCharsUpper 0 = [] := by rw [hexCharsUpper]
    rw [hdiv, hz]
    rfl
  | succ k ih =>
    intro n hlo hhi
    have hpos : 0 < n := lt_of_lt_of_le (Nat.pos_pow_of_pos (k + 1) (by omega)) hlo
    rw [hexCharsUpper_pos n hpos]
    simp only [List.length_append, List.length_cons, List.length_nil]
    rw [ih (n / 16) ?_ ?_]
    · apply (Nat.le_div_iff_mul_le (by omega)).mpr
      calc 16 ^ k * 16 = 16 ^ (k + 1) := (pow_succ 16 k).symm
        _ ≤ n := hlo
    · apply (Nat.div_lt_iff_lt_mul (by omega)).mpr
      calc n < 16 ^ (k + 2) := hhi
        _ = 16 ^ (k + 1) * 16 := pow_succ 16 (k + 1)

/-- Counterexample to claim C9: for a compressed pubkey serialization
starting 0x02 0x00 0x00 0x00 the source prints CARD-2000000 — seven hex
digits, without zero padding — and not the eight zero-padded digits the
claim requires. -/
theorem card_ident_counterexample :
    card_ident (2 :: List.replicate 32 0) = "CARD-2000000" ∧
    card_ident (2 :: List.replicate 32 0) ≠ claim_c9_ident (2 :: List.replicate 32 0) := by
  have hfold : be_u32_fold ((2 :: List.replicate 32 0).take 4) = 33554432 := by decide
  have hz : hexCharsUpper 0 = [] := by rw [hexCharsUpper]
  have hhex : hexCharsUpper 33554432 =
      [hexDigitUpper 2, hexDigitUpper 0, hexDigitUpper 0, hexDigitUpper 0,
       hexDigitUpper 0, hexDigitUpper 0, hexDigitUpper 0] := by
    rw [hexCharsUpper_pos 33554432 (by norm_num)]
    norm_num
    rw [hexCharsUpper_pos 2097152 (by norm_num)]
    norm_num
    rw [hexCharsUpper_pos 131072 (by norm_num)]
    norm_num
    rw [hexCharsUpper_pos 8192 (by norm_num)]
    norm_num
    rw [hexCharsUpper_pos 512 (by norm_num)]
    norm_num
    rw [hexCharsUpper_pos 32 (by norm_num)]
    norm_num
    rw [hexCharsUpper_pos 2 (by norm_num)]
    norm_num
    rw [hz]
  have h1 : card_ident (2 :: List.replicate 32 0) = "CARD-2000000" := by
    unfold card_ident
    rw [hfold, rustHexUpper, if_neg (by norm_num), hhex]
    decide
  refine ⟨h1, ?_⟩
  rw [h1]
  unfold claim_c9_ident
  rw [hfold, rustHexUpper, if_neg (by norm_num), hhex]
  decide

/-- C9 amended: the card ident is CARD- followed by the unpadded
uppercase hex of the first four serialization bytes read as a big-endian
32-bit integer; since a compressed secp256k1 pubkey serialization starts
with byte 2 or 3, that hex has exactly seven digits (ident length 12),
never the eight zero-padded digits stated by the claim. -/
theorem card_ident_format (b0 b1 b2 b3 : Nat) (rest : List Nat)
    (h0 : b0 = 2 ∨ b0 = 3) (h1 : b1 < 256) (h2 : b2 < 256) (h3 : b3 < 256) :
    card_ident (b0 :: b1 :: b2 :: b3 :: rest) =
      "CARD-" ++ rustHexUpper (((b0 * 256 + b1) * 256 + b2) * 256 + b3) ∧
    (card_ident (b0 :: b1 :: b2 :: b3 :: rest)).length = 12 := by
  have hv := be_u32_fold_four b0 b1 b2 b3 rest (by omega) h1 h2 h3
  have hpow : (16 : Nat) ^ 6 = 16777216 := by norm_num
  have hpow7 : (16 : Nat) ^ 7 = 268435456 := by norm_num
  have hlen : (hexCharsUpper (((b0 * 256 + b1) * 256 + b2) * 256 + b3)).length = 7 := by
    apply hexCharsUpper_length 6
    · omega
    · omega
  constructor
  · unfold card_ident
    rw [hv]
  · unfold card_ident
    rw [hv]
    have hvpos : ¬(((b0 * 256 + b1) * 256 + b2) * 256 + b3 = 0) := by omega
    rw [rustHexUpper, if_neg hvpos]
    rw [String.length_append]
    have hsm : (String.mk (hexCharsUpper (((b0 * 256 + b1) * 256 + b2) * 256 + b3))).length = 7 := by
      simp only [String.length]
      exact hlen
    rw [hsm]
    rfl

/-- Witness for card_ident_format at serialization bytes 3, 1, 2, 3. -/
theorem card_ident_format_witness :
    card_ident [3, 1, 2, 3] = "CARD-" ++ rustHexUpper (((3 * 256 + 1) * 256 + 2) * 256 + 3) ∧
    (card_ident [3, 1, 2, 3]).length = 12 :=
  card_ident_format 3 1 2 3 [] (Or.inr rfl) (by decide) (by decide) (by decide)

/-- C5: a successful read latches the response nonce — the stored card
nonce after the call equals the response card_nonce field — and its
signature verification ran against the pre-call stored nonce, not the new
one; likewise a successful check_certificate latches the card nonce of
the CHECK response and verifies its auth_sig against the pre-call
nonce. -/
theorem nonce_latching {PK : Type} [DecidableEq PK]
    (sha256 : List Nat → List Nat) (serialize_uncompressed : PK → List Nat)
    (recover_ecdsa : List Nat → List Nat → Nat → Except CkError PK)
    (roots : List PK)
    (verify : List Nat → List Nat → ReadResponse → Except CkError Unit)
    (verify_card : List Nat → List Nat → List Nat → Except CkError Unit)
    (requires_auth : Bool) (cvc : Option String)
    (transmit_result : Except CkError ReadResponse)
    (cert_chain : List (List Nat)) (check_response : CheckResponse)
    (app_nonce : List Nat) (pubkey : PK) (s : CardState) :
    (∀ response s2,
      read_cmd verify requires_auth cvc transmit_result app_nonce s = (.ok response, s2) →
      s2.card_nonce = response.card_nonce ∧
      verify s.card_nonce app_nonce response = .ok ()) ∧
    (∀ root s2,
      check_certificate_cmd sha256 serialize_uncompressed recover_ecdsa roots verify_card
        (.ok cert_chain) (.ok check_response) app_nonce pubkey s = (.ok root, s2) →
      s2.card_nonce = check_response.card_nonce ∧
      verify_card check_response.auth_sig s.card_nonce app_nonce = .ok ()) := by
  constructor
  · intro response s2 h
    simp only [read_cmd] at h
    split at h
    · simp at h
    · split at h
      · simp at h
      · split at h
        · simp at h
        · simp only [Prod.mk.injEq, Except.ok.injEq] at h
          obtain ⟨h1, h2⟩ := h
          subst h1
          refine ⟨by rw [← h2], ?_⟩
          rename_i u heq
          rw [heq]
  · intro root s2 h
    simp only [check_certificate_cmd] at h
    split at h
    · simp at h
    · simp only [Prod.mk.injEq] at h
      obtain ⟨h1, h2⟩ := h
      refine ⟨by rw [← h2], ?_⟩
      rename_i u heq
      rw [heq]

/-- Witness for nonce_latching: an unauthenticated read whose transport
answer carries the next nonce and whose verification stub succeeds. -/
theorem nonce_latching_witness :
    (CardState.mk [1] none).card_nonce = (ReadResponse.mk [1] [] []).card_nonce ∧
    (fun _ _ _ => (Except.ok () : Except CkError Unit))
      (CardState.mk [0] none).card_nonce ([2] : List Nat) (ReadResponse.mk [1] [] []) = .ok () :=
  (@nonce_latching Nat _ (fun _ => []) (fun _ => []) (fun _ _ _ => .ok 0) []
    (fun _ _ _ => .ok ()) (fun _ _ _ => .ok ()) false none (.ok (ReadResponse.mk [1] [] []))
    [] (CheckResponse.mk [] []) [2] 0 (CardState.mk [0] none)).1
    (ReadResponse.mk [1] [] []) (CardState.mk [1] none) rfl

/-- C10: if the signature verification of a read response fails, read
returns that error and leaves the card state — in particular the stored
card nonce — exactly as before the call: the nonce rotates only after
verification succeeds. -/
theorem read_failed_verify_keeps_nonce
    (verify : List Nat → List Nat → ReadResponse → Except CkError Unit)
    (requires_auth : Bool) (cvc : Option String) (response : ReadResponse)
    (app_nonce : List Nat) (s : CardState) (e : CkError)
    (hcvc : ¬(requires_auth = true ∧ cvc = none))
    (hv : verify s.card_nonce app_nonce response = .error e) :
    read_cmd verify requires_auth cvc (.ok response) app_nonce s = (.error e, s) := by
  simp only [read_cmd]
  rw [if_neg hcvc]
  rw [hv]

/-- Witness for read_failed_verify_keeps_nonce: a verification stub that
rejects leaves the nonce [0] in place. -/
theorem read_failed_verify_keeps_nonce_witness :
    read_cmd (fun _ _ _ => Except.error (CkError.IncorrectSignature "bad sig"))
      false none (.ok (ReadResponse.mk [1] [] [])) [2] (CardState.mk [0] none) =
      (.error (CkError.IncorrectSignature "bad sig"), CardState.mk [0] none) :=
  read_failed_verify_keeps_nonce (fun _ _ _ => Except.error (CkError.IncorrectSignature "bad sig"))
    false none (ReadResponse.mk [1] [] []) [2] (CardState.mk [0] none)
    (CkError.IncorrectSignature "bad sig") (by simp) rfl
